import Mathlib

/-!
Shallow embedding of the BIRS tax-collection dashboard (src/app.py, src/models.py,
src/payment_api.py) for claim verification.

Modelling conventions:
- SQL `Float` amounts are modelled as `ℚ` (exact; the claims are about algebraic
  identities and guards, not floating-point rounding).  Nullable columns are
  `Option`-typed; Python reads them through `or 0`, modelled as `Option.getD 0`.
- Python truthiness of an optional string (`if rrr:`) is `pyTruthy`:
  `None` and the empty string are falsy.
- `datetime` values are a (year, month, day) triple with lexicographic order;
  `extract(month, date_uploaded)` is the `month` projection.
- The database is a `List TaxEntry`; query filters become `List.filter`.
- The two external verifiers return a `{verified, amount}` record.  Network
  and randomness are passed in explicitly: `liveResp` is the parsed response
  of the live API (`none` models a raised-and-caught request/parse error) and
  `rng` is the draw consumed by `random.randint` in mock mode.
- Python `round(x, 2)` is modelled as `pyRound2` (floor of x*100 + 1/2, over
  100).  CPython rounds exact halves to even; no property proved here touches
  a tied case, so the difference is immaterial.
-/

/-- User row (src/models.py lines 6-17). -/
structure User where
  id : Nat
  username : String
  role : String
deriving Repr, DecidableEq

/-- PerformanceTarget row (src/models.py lines 28-32); `target_amount` is a
nullable Float column. -/
structure PerformanceTarget where
  id : Nat
  user_id : Nat
  target_amount : Option ℚ
deriving Repr, DecidableEq

/-- Calendar timestamp for `date_uploaded`, compared lexicographically like
SQL datetimes. -/
structure PyDateTime where
  year : Nat
  month : Nat
  day : Nat
deriving Repr, DecidableEq

/-- Lexicographic comparison of timestamps, the order used by the SQL
`date_uploaded >= / <=` filters. -/
def PyDateTime.le (a b : PyDateTime) : Bool :=
  a.year < b.year ||
    (a.year == b.year &&
      (a.month < b.month || (a.month == b.month && a.day ≤ b.day)))

/-- TaxEntry row (src/models.py lines 36-51).  `rrr` / `paydirect_ref` carry a
database-level UNIQUE constraint over non-null values.  The free-form JSON
`data` column is an opaque key/value list. -/
structure TaxEntry where
  id : Nat
  tax_item : Option String
  subhead : Option String
  rrr : Option String
  paydirect_ref : Option String
  rrr_verified : Bool
  paydirect_verified : Bool
  rrr_amount : Option ℚ
  paydirect_amount : Option ℚ
  uploaded_by : Nat
  data : List (String × String)
  date_uploaded : PyDateTime
  month : Option Nat
  year : Option Nat
deriving Repr, DecidableEq

/-- Result record of the two payment verifiers. -/
structure VerifyResult where
  verified : Bool
  amount : ℚ
deriving Repr, DecidableEq

/-- Python truthiness of an optional string: `None` and `""` are falsy. -/
def pyTruthy : Option String → Bool
  | none => false
  | some s => s ≠ ""

/-- Python truthiness of an optional number: `None` and `0` are falsy
(`percent_met = ... if target else 0`, src/app.py line 60). -/
def pyTruthyNum : Option ℚ → Bool
  | none => false
  | some q => q ≠ 0

/-- Python `round(x, 2)` (half-to-even ties modelled half-up; no proved
property touches a tie). -/
def pyRound2 (q : ℚ) : ℚ :=
  ((⌊q * 100 + 1 / 2⌋ : ℤ) : ℚ) / 100

/-- `verify_remita_rrr` (src/payment_api.py lines 7-37).  `useLive` is the
`USE_LIVE_API` flag; `liveResp = none` models a caught requests/ValueError
(return `{verified: False, amount: 0}`), `some (status, amount)` the parsed
response fields (`data.get("status")`, `data.get("amount", 0)`; the non-JSON
content-type branch is `some (none, none)`).  `rng` is the draw consumed by
`random.randint(10000, 200000)` in mock mode. -/
def verify_remita_rrr (useLive : Bool) (liveResp : Option (Option String × Option ℚ))
    (rng : Nat) (rrr : Option String) : VerifyResult :=
  if pyTruthy rrr = false then { verified := false, amount := 0 }
  else if useLive then
    match liveResp with
    | none => { verified := false, amount := 0 }
    | some (status, amount) =>
        { verified := status == some "SUCCESS", amount := amount.getD 0 }
  else
    { verified := true, amount := ((10000 + rng % 190001 : Nat) : ℚ) }

/-- `verify_paydirect_reference` (src/payment_api.py lines 40-70); identical
shape, mock draw `random.randint(15500, 502000)`. -/
def verify_paydirect_reference (useLive : Bool) (liveResp : Option (Option String × Option ℚ))
    (rng : Nat) (reference : Option String) : VerifyResult :=
  if pyTruthy reference = false then { verified := false, amount := 0 }
  else if useLive then
    match liveResp with
    | none => { verified := false, amount := 0 }
    | some (status, amount) =>
        { verified := status == some "SUCCESS", amount := amount.getD 0 }
  else
    { verified := true, amount := ((15500 + rng % 486501 : Nat) : ℚ) }

/- ===================== Aggregation engine (src/app.py) ===================== -/

/-- Stable descending sort by a rational key: the model of CPython
`list.sort(key=k, reverse=True)` (src/app.py lines 70, 367, 991).  CPython
sorts stably; any two stable sorts under the same key agree elementwise, so
stable insertion sort is an exact model. -/
def pySortDescBy {α : Type} (key : α → ℚ) (l : List α) : List α :=
  List.insertionSort (fun x y => key y ≤ key x) l

/-- The `or 0` sum of both channels over entries where either channel is
verified: the `total_returns` aggregate of `get_league_table_data`
(src/app.py lines 52-56), also used by the `/dashboard` ato branch and
`/ato/<id>` detail view. -/
def total_returns (entries : List TaxEntry) : ℚ :=
  ((entries.filter (fun e => e.rrr_verified || e.paydirect_verified)).map
    (fun e => e.rrr_amount.getD 0 + e.paydirect_amount.getD 0)).sum

/-- `get_target_for_ato` (src/app.py lines 933-942): the stored
`target_amount` (which may itself be NULL) if a target row exists, else `0`. -/
def get_target_for_ato (targets : List PerformanceTarget) (uid : Nat) : Option ℚ :=
  match targets.find? (fun t => t.user_id == uid) with
  | none => some 0
  | some t => t.target_amount

/-- League row produced by `get_league_table_data` (src/app.py lines 62-67). -/
structure LeagueDataRow where
  ato_name : String
  target : ℚ
  total_returns : ℚ
  percent_met : ℚ
deriving Repr, DecidableEq

/-- Loop body of `get_league_table_data` (src/app.py lines 49-67): the league
row built for one `ato` user — the either-verified `total_returns` over that
uploader, the target, and `percent_met = round(total/target*100, 2) if target
else 0` (note: the guard is Python truthiness of `target`, excluding only
`None` and `0`). -/
def leagueDataRowFor (entries : List TaxEntry) (targets : List PerformanceTarget)
    (ato : User) : LeagueDataRow :=
  let tot := total_returns (entries.filter (fun e => e.uploaded_by == ato.id))
  let target := get_target_for_ato targets ato.id
  let pm := if pyTruthyNum target then pyRound2 (tot / target.getD 0 * 100) else 0
  { ato_name := ato.username, target := target.getD 0,
    total_returns := tot, percent_met := pm }

/-- `get_league_table_data` (src/app.py lines 44-71): one row per `ato` user,
sorted by `percent_met` descending. -/
def get_league_table_data (users : List User) (entries : List TaxEntry)
    (targets : List PerformanceTarget) : List LeagueDataRow :=
  pySortDescBy (fun r => r.percent_met)
    ((users.filter (fun u => u.role == "ato")).map (leagueDataRowFor entries targets))

/-- Summary record returned by `get_user_summary` (src/app.py lines 209-213). -/
structure UserSummary where
  rrr_total : ℚ
  paydirect_total : ℚ
  total_amount : ℚ
deriving Repr, DecidableEq

/-- `get_user_summary` (src/app.py lines 194-213): SQL-sums `rrr_amount` and
`paydirect_amount` over the rows of one uploader where `rrr_verified OR
paydirect_verified`; SQL `SUM` skips NULLs and the route applies `or 0` to the
result, which together equal summing `getD 0` values. -/
def get_user_summary (entries : List TaxEntry) (user_id : Nat) : UserSummary :=
  let rows := entries.filter
    (fun e => e.uploaded_by == user_id && (e.rrr_verified || e.paydirect_verified))
  let rrr_total := (rows.map (fun e => e.rrr_amount.getD 0)).sum
  let paydirect_total := (rows.map (fun e => e.paydirect_amount.getD 0)).sum
  { rrr_total := rrr_total, paydirect_total := paydirect_total,
    total_amount := rrr_total + paydirect_total }

/-- Date-window test of the SQL filters `date_uploaded >= from` / `<= to`;
an absent bound is no constraint. -/
def matchesRange (fromD toD : Option PyDateTime) (e : TaxEntry) : Bool :=
  (match fromD with | none => true | some d => PyDateTime.le d e.date_uploaded) &&
  (match toD with | none => true | some d => PyDateTime.le e.date_uploaded d)

/-- Per-channel CASE sum `SUM(CASE WHEN rrr_verified THEN rrr_amount ELSE 0)`
used by the league and analytics queries (src/app.py lines 163, 954). -/
def verified_rrr_sum (es : List TaxEntry) : ℚ :=
  (es.map (fun e => if e.rrr_verified then e.rrr_amount.getD 0 else 0)).sum

/-- Per-channel CASE sum for the PayDirect channel (src/app.py lines 164, 955). -/
def verified_paydirect_sum (es : List TaxEntry) : ℚ :=
  (es.map (fun e => if e.paydirect_verified then e.paydirect_amount.getD 0 else 0)).sum

/-- Membership test of one uploader entry in the league query date window. -/
def routeMatches (fromD toD : Option PyDateTime) (uid : Nat) (e : TaxEntry) : Bool :=
  e.uploaded_by == uid && matchesRange fromD toD e

/-- Enriched league row of the `/league-table` route (src/app.py lines 980-988). -/
structure EnrichedRow where
  user_id : Nat
  ATO : String
  RRR : ℚ
  Paydirect : ℚ
  Target : ℚ
  Actual : ℚ
  Percent : ℚ
deriving Repr, DecidableEq

/-- The `/league-table` route (src/app.py lines 944-1003).  The SQL query
INNER-joins `User` with `TaxEntry` and groups by the (unique, primary-key)
user id, so it yields one group per `ato` user having at least one entry in
the date window; per-channel CASE sums, target via outer join (`entry.Target
or 0`), `percent = round(total/target*100, 2) if target > 0 else 0`, then a
stable sort by `Percent` descending. -/
def league_table (users : List User) (entries : List TaxEntry)
    (targets : List PerformanceTarget) (fromD toD : Option PyDateTime) : List EnrichedRow :=
  pySortDescBy (fun r => r.Percent)
    ((users.filter (fun u =>
        u.role == "ato" && entries.any (routeMatches fromD toD u.id))).map
      (fun u =>
        let es := entries.filter (routeMatches fromD toD u.id)
        let rrr := verified_rrr_sum es
        let paydirect := verified_paydirect_sum es
        let target := ((targets.find? (fun t => t.user_id == u.id)).bind
          (fun t => t.target_amount)).getD 0
        let tot := rrr + paydirect
        let percent := if 0 < target then pyRound2 (tot / target * 100) else 0
        { user_id := u.id, ATO := u.username, RRR := rrr, Paydirect := paydirect,
          Target := target, Actual := tot, Percent := percent }))

/- ===================== Monthly analytics (src/app.py) ===================== -/

/-- Monthly analytics row of `get_analytics_data_filtered` (src/app.py lines
184-190); the `month_name` display string is elided. -/
structure MonthRow where
  month : Nat
  rrr : ℚ
  paydirect : ℚ
  total : ℚ
deriving Repr, DecidableEq

/-- `get_analytics_data_filtered` (src/app.py lines 159-192): SQL groups the
date-filtered entries by `extract(month, date_uploaded)` with per-channel CASE
sums; the Python loop then emits months 1..12 in order, reading each group
with default `0`.  Reading a group with default 0 equals summing directly over
the month-m entries. -/
def get_analytics_data_filtered (entries : List TaxEntry)
    (fromD toD : Option PyDateTime) : List MonthRow :=
  (List.range 12).map (fun i =>
    let m := i + 1
    let es := entries.filter
      (fun e => matchesRange fromD toD e && e.date_uploaded.month == m)
    let rrr := verified_rrr_sum es
    let paydirect := verified_paydirect_sum es
    { month := m, rrr := rrr, paydirect := paydirect, total := rrr + paydirect })

/-- Grouping key of `get_analytics_data`: the `strftime(%Y-%m, date_uploaded)`
string, i.e. the (year, month) pair. -/
def ymKey (e : TaxEntry) : Nat × Nat :=
  (e.date_uploaded.year, e.date_uploaded.month)

/-- Ascending order on `%Y-%m` keys (string order equals numeric lexicographic
order for four-digit years). -/
def ymLe (a b : Nat × Nat) : Bool :=
  a.1 < b.1 || (a.1 == b.1 && a.2 ≤ b.2)

/-- `get_analytics_data` (src/app.py lines 73-102): the date filter is applied
only when BOTH bounds are supplied (line 92 `if from_date and to_date:`); the
result has one row per `%Y-%m` group present among the (filtered) entries,
ordered by the month string, each with the summed CASE totals of both
channels.  Months with no entries produce no row. -/
def get_analytics_data (entries : List TaxEntry)
    (fromD toD : Option PyDateTime) : List ((Nat × Nat) × ℚ) :=
  let es : List TaxEntry := match fromD, toD with
    | some f, some t => entries.filter
        (fun e => PyDateTime.le f e.date_uploaded && PyDateTime.le e.date_uploaded t)
    | _, _ => entries
  let keys := List.insertionSort (fun a b => ymLe a b = true) (es.map ymKey).dedup
  keys.map (fun k =>
    let grp := es.filter (fun e => ymKey e == k)
    (k, (grp.map (fun e =>
      (if e.rrr_verified then e.rrr_amount.getD 0 else 0) +
      (if e.paydirect_verified then e.paydirect_amount.getD 0 else 0))).sum))

/- ===================== Store operations (src/app.py) ===================== -/

/-- Form data of a `/submit_tax_item` POST (src/app.py lines 711-715, 745):
the structured fields plus the free-form remainder of the form. -/
structure Submission where
  tax_item : Option String
  road_subhead : Option String
  remita_rrr : Option String
  paydirect : Option String
  other_fields : List (String × String)
deriving Repr, DecidableEq

/-- Outcome of a submission: the flashed message class (src/app.py lines
721, 728, 771, 774). -/
inductive SubmitOutcome where
  | success
  | duplicateRRRMessage
  | duplicatePaydirectMessage
  | integrityError
deriving Repr, DecidableEq

/-- All three rejection outcomes report a duplicate reference to the user and
leave the store unchanged. -/
def SubmitOutcome.isDuplicateReferenceError : SubmitOutcome → Bool
  | .success => false
  | _ => true

/-- `submit_tax_item` (src/app.py lines 708-779), parametrised over the
verifier responses for this request (`verifyA` models `verify_remita_rrr`,
`verifyB` models `verify_paydirect_reference`; each is consulted only on a
truthy reference, line 733-734), the current user id, the current UTC time
and the fresh primary key.  Steps: truthy-reference duplicate pre-checks;
verification; insert guarded by the UNIQUE constraints of models.py lines
40-41 (violation raises IntegrityError, caught and rolled back).  The derived
`date_of_collection` string added to `data` is elided. -/
def submit_tax_item (store : List TaxEntry) (sub : Submission)
    (verifyA verifyB : String → VerifyResult) (uid : Nat) (now : PyDateTime)
    (newId : Nat) : List TaxEntry × SubmitOutcome :=
  if pyTruthy sub.remita_rrr && store.any (fun e => e.rrr == sub.remita_rrr) then
    (store, .duplicateRRRMessage)
  else if pyTruthy sub.paydirect && store.any (fun e => e.paydirect_ref == sub.paydirect) then
    (store, .duplicatePaydirectMessage)
  else
    let rrrRes := if pyTruthy sub.remita_rrr then verifyA (sub.remita_rrr.getD "")
      else { verified := false, amount := 0 }
    let pdRes := if pyTruthy sub.paydirect then verifyB (sub.paydirect.getD "")
      else { verified := false, amount := 0 }
    let newEntry : TaxEntry := {
      id := newId,
      tax_item := sub.tax_item,
      subhead := if sub.tax_item == some "Road" then sub.road_subhead else none,
      rrr := sub.remita_rrr,
      paydirect_ref := sub.paydirect,
      rrr_verified := rrrRes.verified,
      paydirect_verified := pdRes.verified,
      rrr_amount := some rrrRes.amount,
      paydirect_amount := some pdRes.amount,
      uploaded_by := uid,
      data := sub.other_fields,
      date_uploaded := now,
      month := some now.month,
      year := some now.year }
    if (sub.remita_rrr.isSome && store.any (fun e => e.rrr == sub.remita_rrr)) ||
       (sub.paydirect.isSome && store.any (fun e => e.paydirect_ref == sub.paydirect)) then
      (store, .integrityError)
    else
      (store ++ [newEntry], .success)

/-- Outcome of `/delete_entry/<id>` (src/app.py lines 782-796). -/
inductive DeleteOutcome where
  | success
  | rejectedVerified
  | notFound
deriving Repr, DecidableEq

/-- `delete_entry` (src/app.py lines 782-796): 404 when the id is absent;
delete only when neither channel is verified, otherwise flash "Cannot delete
verified entry." and change nothing. -/
def delete_entry (store : List TaxEntry) (entry_id : Nat) :
    List TaxEntry × DeleteOutcome :=
  match store.find? (fun e => e.id == entry_id) with
  | none => (store, .notFound)
  | some e =>
    if !e.rrr_verified && !e.paydirect_verified then
      (store.eraseP (fun x => x.id == entry_id), .success)
    else
      (store, .rejectedVerified)

/-- `reverify_entry` (src/app.py lines 1206-1228), parametrised over the
verifier responses for this request: each channel with a truthy reference has
its verified flag and amount overwritten from the verifier; everything else
is untouched. -/
def reverify_entry (e : TaxEntry) (verifyA verifyB : String → VerifyResult) : TaxEntry :=
  let e1 := if pyTruthy e.rrr then
      let r := verifyA (e.rrr.getD "")
      { e with rrr_verified := r.verified, rrr_amount := some r.amount }
    else e
  if pyTruthy e1.paydirect_ref then
    let p := verifyB (e1.paydirect_ref.getD "")
    { e1 with paydirect_verified := p.verified, paydirect_amount := some p.amount }
  else e1

/- ===================== Sort lemmas ===================== -/

/-- The Python sort returns a permutation of its input. -/
theorem pySortDescBy_perm {α : Type} (key : α → ℚ) (l : List α) :
    List.Perm (pySortDescBy key l) l :=
  List.perm_insertionSort _ l

/-- Membership is preserved by the Python sort. -/
theorem pySortDescBy_mem {α : Type} (key : α → ℚ) (l : List α) (x : α) :
    x ∈ pySortDescBy key l ↔ x ∈ l :=
  List.mem_insertionSort _

/-- The Python sort output is sorted with the key descending. -/
theorem pySortDescBy_sorted {α : Type} (key : α → ℚ) (l : List α) :
    List.Sorted (fun a b => key b ≤ key a) (pySortDescBy key l) := by
  haveI : IsTotal α fun a b => key b ≤ key a := ⟨fun a b => le_total (key b) (key a)⟩
  haveI : IsTrans α fun a b => key b ≤ key a :=
    ⟨fun _ _ _ h1 h2 => le_trans h2 h1⟩
  exact List.sorted_insertionSort _ l

/-- Sorting an already sorted list is the identity. -/
theorem pySortDescBy_idem {α : Type} (key : α → ℚ) (l : List α) :
    pySortDescBy key (pySortDescBy key l) = pySortDescBy key l :=
  (pySortDescBy_sorted key l).insertionSort_eq

/-- Inserting into any list commutes with filtering one key class: elements
skipped on the way in have a strictly larger key. -/
theorem filter_key_orderedInsert {α : Type} (key : α → ℚ) (q : ℚ) (a : α) :
    ∀ m : List α,
      List.filter (fun x => key x == q)
          (List.orderedInsert (fun x y => key y ≤ key x) a m) =
        if key a == q then a :: m.filter (fun x => key x == q)
        else m.filter (fun x => key x == q)
  | [] => by
    simp [List.orderedInsert, List.filter_cons]
  | b :: m => by
    by_cases hba : key b ≤ key a
    · rw [List.orderedInsert, if_pos hba]
      simp [List.filter_cons]
    · rw [List.orderedInsert, if_neg hba]
      have hab : key a < key b := lt_of_not_le hba
      rw [List.filter_cons, filter_key_orderedInsert key q a m]
      by_cases ha : key a = q
      · have hb : ¬ key b = q := by
          intro hbq
          rw [ha] at hab
          rw [hbq] at hab
          exact lt_irrefl q hab
        simp [List.filter_cons, ha, hb]
      · simp [List.filter_cons, ha]

/-- Stability of the Python sort: within one key class the input order is
kept verbatim. -/
theorem pySortDescBy_filter_eq {α : Type} (key : α → ℚ) (q : ℚ) :
    ∀ l : List α,
      (pySortDescBy key l).filter (fun x => key x == q) =
        l.filter (fun x => key x == q)
  | [] => rfl
  | a :: l => by
    have ih := pySortDescBy_filter_eq key q l
    simp only [pySortDescBy, List.insertionSort] at ih ⊢
    rw [filter_key_orderedInsert key q a (List.insertionSort _ l), ih]
    by_cases ha : key a = q <;> simp [List.filter_cons, ha]

/- ===================== Claim C5 ===================== -/

/-- League row fixture with Percent 50 for user bob. -/
def rowTieBob : EnrichedRow :=
  { user_id := 2, ATO := "bob", RRR := 50, Paydirect := 0, Target := 100,
    Actual := 50, Percent := 50 }

/-- League row fixture with Percent 50 for user alice. -/
def rowTieAlice : EnrichedRow :=
  { user_id := 1, ATO := "alice", RRR := 50, Paydirect := 0, Target := 100,
    Actual := 50, Percent := 50 }

/-- Claim C5, counterexample: the league sort does NOT break ties by agent
name ascending.  On the input [bob, alice] with equal Percent the code keeps
the input order, leaving bob (the lexicographically larger name) first. -/
theorem c5_tie_not_broken_by_name :
    pySortDescBy (fun r => r.Percent) [rowTieBob, rowTieAlice] = [rowTieBob, rowTieAlice]
    ∧ rowTieBob.Percent = rowTieAlice.Percent
    ∧ rowTieAlice.ATO.data < rowTieBob.ATO.data := by
  refine ⟨?_, rfl, by decide⟩
  simp only [pySortDescBy, List.insertionSort, List.orderedInsert_nil]
  rw [List.orderedInsert, if_pos (by norm_num [rowTieBob, rowTieAlice])]

/-- Claim C5 (amended): the league sort (used by the dashboard and the
league-table route) sorts by Percent descending, returns a permutation of its
input, re-sorting its output is a no-op, and it is stable: each equal-Percent
class keeps its input order verbatim (so the output is a deterministic
function of the input order, with ties kept in input order rather than
re-ordered by agent name). -/
theorem c5_league_sort_properties (l : List EnrichedRow) :
    List.Sorted (fun a b : EnrichedRow => b.Percent ≤ a.Percent)
      (pySortDescBy (fun r => r.Percent) l)
    ∧ List.Perm (pySortDescBy (fun r => r.Percent) l) l
    ∧ pySortDescBy (fun r => r.Percent) (pySortDescBy (fun r => r.Percent) l) =
        pySortDescBy (fun r => r.Percent) l
    ∧ ∀ q : ℚ,
        (pySortDescBy (fun r => r.Percent) l).filter (fun r => r.Percent == q) =
          l.filter (fun r => r.Percent == q) :=
  ⟨pySortDescBy_sorted _ l, pySortDescBy_perm _ l, pySortDescBy_idem _ l,
    fun q => pySortDescBy_filter_eq _ q l⟩

/- ===================== Claim C1 ===================== -/

/-- Entry fixture: RRR channel verified with amount 0, PayDirect channel NOT
verified but carrying amount 9999999. -/
def entryMixedVerified : TaxEntry :=
  { id := 1, tax_item := some "Road", subhead := some "Sub", rrr := some "RRR-1",
    paydirect_ref := some "PD-1", rrr_verified := true, paydirect_verified := false,
    rrr_amount := some 0, paydirect_amount := some 9999999, uploaded_by := 7,
    data := [], date_uploaded := ⟨2025, 3, 10⟩, month := some 3, year := some 2025 }

/-- Ato user fixture owning `entryMixedVerified`. -/
def atoGrace : User := ⟨7, "grace", "ato"⟩

/-- Claim C1 (code bug), evaluation at the failing input: with one entry whose
PayDirect channel is unverified and stores 9999999 (RRR verified, amount 0),
`get_league_table_data` and `get_user_summary` both report a total of 9999999
— the unverified channel amount is counted because both gate on `rrr_verified
OR paydirect_verified` and then add both amounts.  The claim (and the
CASE-based sums elsewhere in the code) require its contribution to be 0. -/
theorem c1_unverified_amount_counted :
    entryMixedVerified.paydirect_verified = false
    ∧ total_returns [entryMixedVerified] = 9999999
    ∧ (get_user_summary [entryMixedVerified] 7).paydirect_total = 9999999
    ∧ (get_user_summary [entryMixedVerified] 7).total_amount = 9999999
    ∧ get_league_table_data [atoGrace] [entryMixedVerified] [] =
        [{ ato_name := "grace", target := 0, total_returns := 9999999, percent_met := 0 }] := by
  refine ⟨rfl, ?_, ?_, ?_, ?_⟩
  · norm_num [total_returns, entryMixedVerified, List.filter_cons]
  · norm_num [get_user_summary, entryMixedVerified, List.filter_cons]
  · norm_num [get_user_summary, entryMixedVerified, List.filter_cons]
  · simp only [get_league_table_data, pySortDescBy, List.insertionSort,
      List.orderedInsert_nil]
    norm_num [leagueDataRowFor, total_returns, entryMixedVerified, atoGrace,
      get_target_for_ato, pyTruthyNum, List.filter_cons]

/- ===================== Claim C2 ===================== -/

/-- Ato user fixture for the negative-target scenario. -/
def atoAliceNeg : User := ⟨1, "alice", "ato"⟩

/-- Performance target fixture with a NEGATIVE target amount (nothing in the
code prevents storing one; `create_ato` accepts any float). -/
def targetNeg : PerformanceTarget := ⟨1, 1, some (-100)⟩

/-- Entry fixture: verified RRR amount 50 for user 1. -/
def entryVerified50 : TaxEntry :=
  { id := 2, tax_item := some "Land", subhead := none, rrr := some "RRR-2",
    paydirect_ref := none, rrr_verified := true, paydirect_verified := false,
    rrr_amount := some 50, paydirect_amount := none, uploaded_by := 1,
    data := [], date_uploaded := ⟨2025, 4, 1⟩, month := some 4, year := some 2025 }

/-- Claim C2 (code bug), evaluation at the failing input: for target -100 and
verified total 50, `get_league_table_data` computes percent_met = -50 (its
guard `if target` only excludes None and 0), which is neither 0 nor in
[0, infinity); the league-table route with its `target > 0` guard returns 0
on the same data, as the claim requires. -/
theorem c2_negative_target_negative_percent :
    get_league_table_data [atoAliceNeg] [entryVerified50] [targetNeg] =
      [{ ato_name := "alice", target := -100, total_returns := 50, percent_met := -50 }]
    ∧ ((-50 : ℚ) < 0)
    ∧ league_table [atoAliceNeg] [entryVerified50] [targetNeg] none none =
        [{ user_id := 1, ATO := "alice", RRR := 50, Paydirect := 0, Target := -100,
           Actual := 50, Percent := 0 }] := by
  refine ⟨?_, by norm_num, ?_⟩
  · simp only [get_league_table_data, pySortDescBy, List.insertionSort,
      List.orderedInsert_nil]
    norm_num [leagueDataRowFor, total_returns, entryVerified50, atoAliceNeg, targetNeg,
      get_target_for_ato, pyTruthyNum, pyRound2, List.filter_cons]
  · simp only [league_table, pySortDescBy, List.insertionSort, List.orderedInsert_nil]
    norm_num [verified_rrr_sum, verified_paydirect_sum, routeMatches, matchesRange,
      entryVerified50, atoAliceNeg, targetNeg, List.filter_cons]

/- ===================== Claim C3 ===================== -/

/-- Ato user fixture with no entries at all. -/
def atoCarol : User := ⟨3, "carol", "ato"⟩

/-- Claim C3, counterexample: with one ato user and an empty entry store the
league-table route emits NO row at all (its query INNER-joins TaxEntry), so
an ato agent with zero matching entries is silently dropped. -/
theorem c3_zero_entry_ato_dropped :
    league_table [atoCarol] [] [] none none = [] ∧ atoCarol.role = "ato" :=
  ⟨by decide, rfl⟩

/-- In a list whose key column is duplicate-free, filtering on the key of a
member yields exactly that member. -/
theorem filter_key_eq_singleton {α β : Type} [DecidableEq β] (key : α → β) :
    ∀ (l : List α) (u : α), (l.map key).Nodup → u ∈ l →
      l.filter (fun v => key v == key u) = [u]
  | [], u, _, hu => absurd hu (List.not_mem_nil u)
  | a :: l, u, hnd, hu => by
    have hnd2 : (key a :: l.map key).Nodup := by simpa using hnd
    obtain ⟨hka, hndl⟩ := List.nodup_cons.mp hnd2
    rcases List.mem_cons.mp hu with rfl | hul
    · rw [List.filter_cons, if_pos (by simp)]
      have hnil : l.filter (fun v => key v == key u) = [] := by
        rw [List.filter_eq_nil_iff]
        intro v hv hbeq
        have hvu : key v = key u := by simpa using hbeq
        exact hka (hvu ▸ List.mem_map_of_mem key hv)
      rw [hnil]
    · have hqa : ¬ ((key a == key u) = true) := by
        intro hb
        have hau : key a = key u := by simpa using hb
        exact hka (hau.symm ▸ List.mem_map_of_mem key hul)
      rw [List.filter_cons, if_neg hqa]
      exact filter_key_eq_singleton key l u hndl hul

/-- Usernames are a UNIQUE column (src/models.py line 8): filtering a
duplicate-free user list on the username of a member yields exactly that
user. -/
theorem username_filter_eq_singleton (l : List User) (u : User)
    (hnd : (l.map (fun v => v.username)).Nodup) (hu : u ∈ l) :
    l.filter (fun v => v.username == u.username) = [u] :=
  filter_key_eq_singleton (fun v => v.username) l u hnd hu

/-- Claim C3 (amended): `get_league_table_data` emits EXACTLY ONE row per ato
user — the row keyed by the username, which is a UNIQUE column — and an ato
user with no entries gets the zero-filled row (totals 0, percent 0); the
league-table route emits a row for an ato user precisely when that user has
at least one entry in the date window (user ids are primary keys, usernames
unique, hence the two Nodup hypotheses). -/
theorem c3_league_roster (users : List User) (entries : List TaxEntry)
    (targets : List PerformanceTarget) (fromD toD : Option PyDateTime)
    (hids : (users.map (fun u => u.id)).Nodup)
    (hnames : (users.map (fun u => u.username)).Nodup)
    (u : User) (hu : u ∈ users) (hrole : u.role = "ato") :
    ((get_league_table_data users entries targets).filter
        (fun row => row.ato_name == u.username)).length = 1
    ∧ (entries.filter (fun e => e.uploaded_by == u.id) = [] →
        ({ ato_name := u.username, target := (get_target_for_ato targets u.id).getD 0,
           total_returns := 0, percent_met := 0 } : LeagueDataRow)
          ∈ get_league_table_data users entries targets)
    ∧ ((∃ row ∈ league_table users entries targets fromD toD, row.user_id = u.id)
        ↔ ∃ e ∈ entries, routeMatches fromD toD u.id e = true) := by
  have hufilter : u ∈ users.filter (fun v => v.role == "ato") :=
    List.mem_filter.mpr ⟨hu, by simp [hrole]⟩
  have hnames2 : ((users.filter (fun v => v.role == "ato")).map
      (fun v => v.username)).Nodup :=
    List.Nodup.sublist (List.Sublist.map _ (List.filter_sublist users)) hnames
  refine ⟨?_, ?_, ?_⟩
  · have hmap : ((users.filter (fun v => v.role == "ato")).map
        (leagueDataRowFor entries targets)).filter
          (fun row => row.ato_name == u.username) =
        [leagueDataRowFor entries targets u] := by
      rw [List.filter_map]
      have hcong : (users.filter (fun v => v.role == "ato")).filter
          ((fun row => row.ato_name == u.username) ∘ leagueDataRowFor entries targets) =
          (users.filter (fun v => v.role == "ato")).filter
            (fun v => v.username == u.username) :=
        List.filter_congr (fun x _ => rfl)
      rw [hcong, username_filter_eq_singleton _ u hnames2 hufilter]
      rfl
    have hperm : ((get_league_table_data users entries targets).filter
        (fun row => row.ato_name == u.username)).Perm
          [leagueDataRowFor entries targets u] := by
      rw [← hmap]
      exact (pySortDescBy_perm _ _).filter _
    rw [List.perm_singleton.mp hperm]
    rfl
  · intro hzero
    have hrow : leagueDataRowFor entries targets u =
        { ato_name := u.username, target := (get_target_for_ato targets u.id).getD 0,
          total_returns := 0, percent_met := 0 } := by
      simp only [leagueDataRowFor, hzero, total_returns, List.filter_nil,
        List.map_nil, List.sum_nil]
      split_ifs with ht
      · norm_num [pyRound2]
      · rfl
    exact hrow ▸ (pySortDescBy_mem _ _ _).mpr (List.mem_map_of_mem _ hufilter)
  · constructor
    · rintro ⟨row, hrowmem, hrowid⟩
      obtain ⟨u2, hu2mem, hrow⟩ :=
        List.mem_map.mp ((pySortDescBy_mem _ _ row).mp hrowmem)
      obtain ⟨hu2users, hcond⟩ := List.mem_filter.mp hu2mem
      simp only [Bool.and_eq_true] at hcond
      obtain ⟨hrole2, hany⟩ := hcond
      have hid : u2.id = u.id := by rw [← hrowid, ← hrow]
      have huu : u2 = u := List.inj_on_of_nodup_map hids hu2users hu hid
      rw [huu] at hany
      obtain ⟨e, he, hme⟩ := List.any_eq_true.mp hany
      exact ⟨e, he, hme⟩
    · rintro ⟨e, he, hme⟩
      have hany : entries.any (routeMatches fromD toD u.id) = true :=
        List.any_eq_true.mpr ⟨e, he, hme⟩
      exact ⟨_, (pySortDescBy_mem _ _ _).mpr
        (List.mem_map_of_mem _ (List.mem_filter.mpr ⟨hu, by simp [hrole, hany]⟩)), rfl⟩

/-- Ato user fixture for the C3 witness. -/
def atoDan : User := ⟨4, "dan", "ato"⟩

/-- Unverified entry fixture uploaded by user 4. -/
def entryDan : TaxEntry :=
  { id := 9, tax_item := some "Land", subhead := none, rrr := some "RRR-9",
    paydirect_ref := none, rrr_verified := false, paydirect_verified := false,
    rrr_amount := none, paydirect_amount := none, uploaded_by := 4,
    data := [], date_uploaded := ⟨2025, 5, 2⟩, month := some 5, year := some 2025 }

/-- Claim C3 witness: the amended roster theorem applied to one ato user with
one entry (exactly one league row, route roster membership) and to one ato
user with no entries (the zero-filled row appears). -/
theorem c3_league_roster_witness :
    ((get_league_table_data [atoDan] [entryDan] []).filter
        (fun row => row.ato_name == atoDan.username)).length = 1
    ∧ ({ ato_name := atoCarol.username, target := (get_target_for_ato [] atoCarol.id).getD 0,
         total_returns := 0, percent_met := 0 } : LeagueDataRow)
        ∈ get_league_table_data [atoCarol] [] []
    ∧ ((∃ row ∈ league_table [atoDan] [entryDan] [] none none, row.user_id = atoDan.id)
        ↔ ∃ e ∈ [entryDan], routeMatches none none atoDan.id e = true) := by
  have h1 := c3_league_roster [atoDan] [entryDan] [] none none (by decide) (by decide)
    atoDan (by decide) rfl
  have h2 := c3_league_roster [atoCarol] [] [] none none (by decide) (by decide)
    atoCarol (by decide) rfl
  exact ⟨h1.1, h2.2.1 rfl, h1.2.2⟩

/- ===================== Claim C4 ===================== -/

/-- Claim C4, counterexample: on the empty entry set `get_analytics_data`
returns NO rows (its SQL group-by yields only the months present), not the 12
zero-filled buckets the claim requires. -/
theorem c4_empty_input_no_buckets :
    get_analytics_data [] none none = []
    ∧ (get_analytics_data [] none none).length = 0 :=
  ⟨rfl, rfl⟩

/-- Claim C4 (amended): `get_analytics_data_filtered` always returns exactly
12 rows with bucket numbers 1..12 in ascending order, and a month with no
matching entries gets an all-zero row. -/
theorem c4_monthly_series (entries : List TaxEntry) (fromD toD : Option PyDateTime) :
    (get_analytics_data_filtered entries fromD toD).length = 12
    ∧ (get_analytics_data_filtered entries fromD toD).map (fun r => r.month) =
        [1, 2, 3, 4, 5, 6, 7, 8, 9, 10, 11, 12]
    ∧ ∀ r ∈ get_analytics_data_filtered entries fromD toD,
        entries.filter
          (fun e => matchesRange fromD toD e && e.date_uploaded.month == r.month) = [] →
        r.rrr = 0 ∧ r.paydirect = 0 ∧ r.total = 0 := by
  refine ⟨?_, ?_, ?_⟩
  · simp [get_analytics_data_filtered]
  · rfl
  · intro r hr hf
    obtain ⟨i, hi, hri⟩ := List.mem_map.mp hr
    subst hri
    simp only [get_analytics_data_filtered] at hf ⊢
    rw [hf]
    simp [verified_rrr_sum, verified_paydirect_sum]

/-- Claim C4 witness: the monthly-series theorem applied to the empty entry
set, and the zero-row consequence read off for the January bucket. -/
theorem c4_monthly_series_witness :
    (get_analytics_data_filtered [] none none).length = 12
    ∧ (get_analytics_data_filtered [] none none).map (fun r => r.month) =
        [1, 2, 3, 4, 5, 6, 7, 8, 9, 10, 11, 12]
    ∧ (({ month := 1, rrr := 0, paydirect := 0, total := 0 } : MonthRow).rrr = 0
        ∧ ({ month := 1, rrr := 0, paydirect := 0, total := 0 } : MonthRow).paydirect = 0
        ∧ ({ month := 1, rrr := 0, paydirect := 0, total := 0 } : MonthRow).total = 0) :=
  ⟨(c4_monthly_series [] none none).1, (c4_monthly_series [] none none).2.1,
    (c4_monthly_series [] none none).2.2
      { month := 1, rrr := 0, paydirect := 0, total := 0 }
      (by
        simp only [get_analytics_data_filtered]
        refine List.mem_map.mpr ⟨0, by decide, ?_⟩
        simp [verified_rrr_sum, verified_paydirect_sum])
      rfl⟩

/- ===================== Claim C6 ===================== -/

/-- Claim C6: (1) a submission whose RRR or PayDirect reference already exists
non-null on a stored entry is rejected with a duplicate-reference outcome and
the store is unchanged; (2) a successful submission carrying an RRR reference
leaves the store with exactly one entry bearing that reference. -/
theorem c6_duplicate_reference_guard :
    (∀ (store : List TaxEntry) (sub : Submission) (vA vB : String → VerifyResult)
        (uid : Nat) (now : PyDateTime) (nid : Nat),
      ((∃ r, sub.remita_rrr = some r ∧ ∃ e ∈ store, e.rrr = some r)
        ∨ (∃ p, sub.paydirect = some p ∧ ∃ e ∈ store, e.paydirect_ref = some p)) →
      (submit_tax_item store sub vA vB uid now nid).2.isDuplicateReferenceError = true
      ∧ (submit_tax_item store sub vA vB uid now nid).1 = store)
    ∧ (∀ (store : List TaxEntry) (sub : Submission) (vA vB : String → VerifyResult)
        (uid : Nat) (now : PyDateTime) (nid : Nat) (r : String),
      sub.remita_rrr = some r →
      (submit_tax_item store sub vA vB uid now nid).2 = SubmitOutcome.success →
      ((submit_tax_item store sub vA vB uid now nid).1.filter
          (fun e => e.rrr == some r)).length = 1) := by
  constructor
  · intro store sub vA vB uid now nid hdup
    simp only [submit_tax_item]
    rcases hdup with ⟨r, hr, e, he, her⟩ | ⟨p, hp, e, he, hep⟩
    · have hany : store.any (fun x => x.rrr == sub.remita_rrr) = true :=
        List.any_eq_true.mpr ⟨e, he, by simp [hr, her]⟩
      have hsome : sub.remita_rrr.isSome = true := by simp [hr]
      split_ifs with h1 h2 h3 <;>
        simp_all [SubmitOutcome.isDuplicateReferenceError]
    · have hany : store.any (fun x => x.paydirect_ref == sub.paydirect) = true :=
        List.any_eq_true.mpr ⟨e, he, by simp [hp, hep]⟩
      have hsome : sub.paydirect.isSome = true := by simp [hp]
      split_ifs with h1 h2 h3 <;>
        simp_all [SubmitOutcome.isDuplicateReferenceError]
  · intro store sub vA vB uid now nid r hr hsucc
    simp only [submit_tax_item] at hsucc ⊢
    split_ifs at hsucc ⊢ with h1 h2 h3
    all_goals
      have hany : store.any (fun x => x.rrr == sub.remita_rrr) = false := by
        cases hb : store.any (fun x => x.rrr == sub.remita_rrr)
        · rfl
        · refine absurd ?_ h3
          simp only [Bool.or_eq_true, Bool.and_eq_true]
          exact Or.inl ⟨by simp [hr], hb⟩
    all_goals rw [List.any_eq_false] at hany
    all_goals
      have hnil : store.filter (fun x => x.rrr == some r) = [] := by
        rw [List.filter_eq_nil_iff]
        intro a ha hbeq
        exact hany a ha (by rw [hr]; exact hbeq)
    all_goals simp [List.filter_append, hnil, hr, List.filter_cons]

/-- Submission fixture carrying RRR reference "RRR-123". -/
def subFix : Submission :=
  { tax_item := some "Road", road_subhead := some "Bridge",
    remita_rrr := some "RRR-123", paydirect := none, other_fields := [] }

/-- Second submission fixture with the same RRR reference. -/
def subFix2 : Submission :=
  { tax_item := some "Land", road_subhead := none,
    remita_rrr := some "RRR-123", paydirect := none, other_fields := [] }

/-- Verifier stub answering verified with amount 40000. -/
def verifierConst40000 : String → VerifyResult :=
  fun _ => { verified := true, amount := 40000 }

/-- Verifier stub answering verified with amount 55000 (distinct amount for
the second submission). -/
def verifierConst55000 : String → VerifyResult :=
  fun _ => { verified := true, amount := 55000 }

/-- Store contents after the first "RRR-123" submission on an empty store. -/
def storeAfterFirst : List TaxEntry :=
  (submit_tax_item [] subFix verifierConst40000 verifierConst40000 7 ⟨2025, 6, 1⟩ 1).1

/-- Claim C6 witness: submitting "RRR-123" twice — the first submission
succeeds and leaves exactly one entry with that reference, the second is
rejected as a duplicate and changes nothing. -/
theorem c6_duplicate_reference_guard_witness :
    (submit_tax_item [] subFix verifierConst40000 verifierConst40000 7 ⟨2025, 6, 1⟩ 1).2 =
      SubmitOutcome.success
    ∧ (storeAfterFirst.filter (fun e => e.rrr == some "RRR-123")).length = 1
    ∧ (submit_tax_item storeAfterFirst subFix2 verifierConst55000 verifierConst55000 8
        ⟨2025, 6, 2⟩ 2).2.isDuplicateReferenceError = true
    ∧ (submit_tax_item storeAfterFirst subFix2 verifierConst55000 verifierConst55000 8
        ⟨2025, 6, 2⟩ 2).1 = storeAfterFirst := by
  have h := c6_duplicate_reference_guard.1 storeAfterFirst subFix2 verifierConst55000
    verifierConst55000 8 ⟨2025, 6, 2⟩ 2 (Or.inl ⟨"RRR-123", rfl, by decide⟩)
  exact ⟨by decide,
    c6_duplicate_reference_guard.2 [] subFix verifierConst40000 verifierConst40000 7
      ⟨2025, 6, 1⟩ 1 "RRR-123" rfl (by decide),
    h.1, h.2⟩

/- ===================== Claim C7 ===================== -/

/-- Claim C7: for the entry found under the requested id, deletion succeeds
precisely when neither channel is verified; a verified entry is rejected with
the store left unchanged; on success the store loses exactly that entry. -/
theorem c7_delete_only_unverified (store : List TaxEntry) (eid : Nat) (e : TaxEntry)
    (hfind : store.find? (fun x => x.id == eid) = some e) :
    ((delete_entry store eid).2 = DeleteOutcome.success
      ↔ (e.rrr_verified = false ∧ e.paydirect_verified = false))
    ∧ ((e.rrr_verified = true ∨ e.paydirect_verified = true) →
        (delete_entry store eid).2 = DeleteOutcome.rejectedVerified
        ∧ (delete_entry store eid).1 = store)
    ∧ (e.rrr_verified = false → e.paydirect_verified = false →
        (delete_entry store eid).1 = store.eraseP (fun x => x.id == eid)) := by
  simp only [delete_entry, hfind]
  cases hr : e.rrr_verified <;> cases hp : e.paydirect_verified <;> simp

/-- Entry fixture with a verified RRR channel (id 11). -/
def entryVerifiedFix : TaxEntry :=
  { id := 11, tax_item := some "Road", subhead := none, rrr := some "RRR-11",
    paydirect_ref := none, rrr_verified := true, paydirect_verified := false,
    rrr_amount := none, paydirect_amount := none, uploaded_by := 3,
    data := [], date_uploaded := ⟨2025, 8, 1⟩, month := some 8, year := some 2025 }

/-- Entry fixture with both channels unverified (id 12). -/
def entryUnverifiedFix : TaxEntry :=
  { id := 12, tax_item := some "Land", subhead := none, rrr := some "RRR-12",
    paydirect_ref := none, rrr_verified := false, paydirect_verified := false,
    rrr_amount := none, paydirect_amount := none, uploaded_by := 3,
    data := [], date_uploaded := ⟨2025, 8, 2⟩, month := some 8, year := some 2025 }

/-- Claim C7 witness: deleting a verified entry is rejected and leaves the
store unchanged; deleting an unverified entry succeeds. -/
theorem c7_delete_only_unverified_witness :
    (delete_entry [entryVerifiedFix] 11).2 = DeleteOutcome.rejectedVerified
    ∧ (delete_entry [entryVerifiedFix] 11).1 = [entryVerifiedFix]
    ∧ (delete_entry [entryUnverifiedFix] 12).2 = DeleteOutcome.success := by
  have h := c7_delete_only_unverified [entryVerifiedFix] 11 entryVerifiedFix (by decide)
  have h2 := c7_delete_only_unverified [entryUnverifiedFix] 12 entryUnverifiedFix (by decide)
  exact ⟨(h.2.1 (Or.inl rfl)).1, (h.2.1 (Or.inl rfl)).2, h2.1.mpr ⟨rfl, rfl⟩⟩

/- ===================== Claim C8 ===================== -/

/-- Claim C8: a null or empty reference makes both verifiers return
`{verified: false, amount: 0}` without touching the network or randomness
(the result is the same for every `liveResp` and `rng`), and the submission
path does not consult the verifier for an absent reference: the outcome of
`submit_tax_item` is independent of that channel verifier function. -/
theorem c8_absent_reference_safe :
    (∀ (useLive : Bool) (liveResp : Option (Option String × Option ℚ)) (rng : Nat)
        (ref : Option String), pyTruthy ref = false →
      verify_remita_rrr useLive liveResp rng ref = { verified := false, amount := 0 }
      ∧ verify_paydirect_reference useLive liveResp rng ref =
          { verified := false, amount := 0 })
    ∧ (∀ (store : List TaxEntry) (sub : Submission) (vA vA2 vB : String → VerifyResult)
        (uid : Nat) (now : PyDateTime) (nid : Nat), pyTruthy sub.remita_rrr = false →
      submit_tax_item store sub vA vB uid now nid =
        submit_tax_item store sub vA2 vB uid now nid)
    ∧ (∀ (store : List TaxEntry) (sub : Submission) (vA vB vB2 : String → VerifyResult)
        (uid : Nat) (now : PyDateTime) (nid : Nat), pyTruthy sub.paydirect = false →
      submit_tax_item store sub vA vB uid now nid =
        submit_tax_item store sub vA vB2 uid now nid) := by
  refine ⟨?_, ?_, ?_⟩
  · intro useLive liveResp rng ref h
    constructor <;> simp [verify_remita_rrr, verify_paydirect_reference, h]
  · intro store sub vA vA2 vB uid now nid h
    simp [submit_tax_item, h]
  · intro store sub vA vB vB2 uid now nid h
    simp [submit_tax_item, h]

/-- Submission fixture with no references at all. -/
def subNoRefs : Submission :=
  { tax_item := some "Water", road_subhead := none, remita_rrr := none,
    paydirect := none, other_fields := [("payer", "x")] }

/-- Claim C8 witness: both verifiers answer `{verified: false, amount: 0}` on
a null and on an empty reference, and submitting a form without references
gives the same result under two different verifier stubs. -/
theorem c8_absent_reference_safe_witness :
    verify_remita_rrr true none 0 none = { verified := false, amount := 0 }
    ∧ verify_paydirect_reference true none 0 none = { verified := false, amount := 0 }
    ∧ verify_remita_rrr false (some (some "SUCCESS", some 7)) 5 (some "") =
        { verified := false, amount := 0 }
    ∧ verify_paydirect_reference false (some (some "SUCCESS", some 7)) 5 (some "") =
        { verified := false, amount := 0 }
    ∧ submit_tax_item [] subNoRefs verifierConst40000 verifierConst40000 7 ⟨2025, 9, 1⟩ 1 =
        submit_tax_item [] subNoRefs verifierConst55000 verifierConst40000 7 ⟨2025, 9, 1⟩ 1
    ∧ submit_tax_item [] subNoRefs verifierConst40000 verifierConst40000 7 ⟨2025, 9, 1⟩ 1 =
        submit_tax_item [] subNoRefs verifierConst40000 verifierConst55000 7 ⟨2025, 9, 1⟩ 1 := by
  have h1 := (c8_absent_reference_safe.1 true none 0 none (by decide))
  have h2 := (c8_absent_reference_safe.1 false (some (some "SUCCESS", some 7)) 5 (some "")
    (by decide))
  exact ⟨h1.1, h1.2, h2.1, h2.2,
    c8_absent_reference_safe.2.1 [] subNoRefs verifierConst40000 verifierConst55000
      verifierConst40000 7 ⟨2025, 9, 1⟩ 1 (by decide),
    c8_absent_reference_safe.2.2 [] subNoRefs verifierConst40000 verifierConst40000
      verifierConst55000 7 ⟨2025, 9, 1⟩ 1 (by decide)⟩

/- ===================== Claim C9 ===================== -/

/-- Closed form of `reverify_entry`: each channel verdict is overwritten
exactly when its reference is truthy; all other fields are copied. -/
theorem reverify_entry_eq (e : TaxEntry) (vA vB : String → VerifyResult) :
    reverify_entry e vA vB =
      { e with
        rrr_verified :=
          if pyTruthy e.rrr then (vA (e.rrr.getD "")).verified else e.rrr_verified,
        rrr_amount :=
          if pyTruthy e.rrr then some (vA (e.rrr.getD "")).amount else e.rrr_amount,
        paydirect_verified :=
          if pyTruthy e.paydirect_ref then (vB (e.paydirect_ref.getD "")).verified
          else e.paydirect_verified,
        paydirect_amount :=
          if pyTruthy e.paydirect_ref then some (vB (e.paydirect_ref.getD "")).amount
          else e.paydirect_amount } := by
  simp only [reverify_entry]
  split_ifs <;> rfl

/-- Claim C9: re-verification only ever overwrites the verified flag and
amount of a channel whose reference is truthy; every other field is kept, and
a channel with a null reference keeps its verified flag and amount. -/
theorem c9_reverify_frame (e : TaxEntry) (vA vB : String → VerifyResult) :
    (reverify_entry e vA vB).id = e.id
    ∧ (reverify_entry e vA vB).tax_item = e.tax_item
    ∧ (reverify_entry e vA vB).subhead = e.subhead
    ∧ (reverify_entry e vA vB).rrr = e.rrr
    ∧ (reverify_entry e vA vB).paydirect_ref = e.paydirect_ref
    ∧ (reverify_entry e vA vB).uploaded_by = e.uploaded_by
    ∧ (reverify_entry e vA vB).data = e.data
    ∧ (reverify_entry e vA vB).date_uploaded = e.date_uploaded
    ∧ (reverify_entry e vA vB).month = e.month
    ∧ (reverify_entry e vA vB).year = e.year
    ∧ (e.rrr = none →
        (reverify_entry e vA vB).rrr_verified = e.rrr_verified
        ∧ (reverify_entry e vA vB).rrr_amount = e.rrr_amount)
    ∧ (e.paydirect_ref = none →
        (reverify_entry e vA vB).paydirect_verified = e.paydirect_verified
        ∧ (reverify_entry e vA vB).paydirect_amount = e.paydirect_amount) := by
  rw [reverify_entry_eq]
  refine ⟨rfl, rfl, rfl, rfl, rfl, rfl, rfl, rfl, rfl, rfl, ?_, ?_⟩
  · intro hnone
    simp [hnone, pyTruthy]
  · intro hnone
    simp [hnone, pyTruthy]

/-- Entry fixture with both references null. -/
def entryNoRefs : TaxEntry :=
  { id := 20, tax_item := some "Water", subhead := none, rrr := none,
    paydirect_ref := none, rrr_verified := false, paydirect_verified := false,
    rrr_amount := none, paydirect_amount := none, uploaded_by := 2,
    data := [("k", "v")], date_uploaded := ⟨2025, 7, 1⟩, month := some 7,
    year := some 2025 }

/-- Claim C9 witness: re-verifying an entry with both references null keeps
its flags, amounts and data even under verifiers that would report success. -/
theorem c9_reverify_frame_witness :
    (reverify_entry entryNoRefs verifierConst40000 verifierConst55000).rrr_verified =
      entryNoRefs.rrr_verified
    ∧ (reverify_entry entryNoRefs verifierConst40000 verifierConst55000).rrr_amount =
        entryNoRefs.rrr_amount
    ∧ (reverify_entry entryNoRefs verifierConst40000 verifierConst55000).paydirect_verified =
        entryNoRefs.paydirect_verified
    ∧ (reverify_entry entryNoRefs verifierConst40000 verifierConst55000).paydirect_amount =
        entryNoRefs.paydirect_amount
    ∧ (reverify_entry entryNoRefs verifierConst40000 verifierConst55000).data =
        entryNoRefs.data := by
  obtain ⟨h1, h2, h3, h4, h5, h6, h7, h8, h9, h10, h11, h12⟩ :=
    c9_reverify_frame entryNoRefs verifierConst40000 verifierConst55000
  exact ⟨(h11 rfl).1, (h11 rfl).2, (h12 rfl).1, (h12 rfl).2, h7⟩

/- ===================== Claim C10 ===================== -/

/-- Claim C10: with the live flag off, both verifiers answer verified = true
on every truthy reference, with an amount inside the mock random range; two
calls with the same reference but different draws return different amounts,
so mock verification is not a function of the reference alone. -/
theorem c10_mock_mode_verification (ref : Option String) (h : pyTruthy ref = true) :
    (∀ (liveResp : Option (Option String × Option ℚ)) (rng : Nat),
      (verify_remita_rrr false liveResp rng ref).verified = true
      ∧ 10000 ≤ (verify_remita_rrr false liveResp rng ref).amount
      ∧ (verify_remita_rrr false liveResp rng ref).amount ≤ 200000
      ∧ (verify_paydirect_reference false liveResp rng ref).verified = true
      ∧ 15500 ≤ (verify_paydirect_reference false liveResp rng ref).amount
      ∧ (verify_paydirect_reference false liveResp rng ref).amount ≤ 502000)
    ∧ (verify_remita_rrr false none 0 ref).amount ≠ (verify_remita_rrr false none 1 ref).amount
    ∧ (verify_paydirect_reference false none 0 ref).amount ≠
        (verify_paydirect_reference false none 1 ref).amount := by
  have hne : ¬ (pyTruthy ref = false) := by simp [h]
  refine ⟨?_, ?_, ?_⟩
  · intro liveResp rng
    simp only [verify_remita_rrr, verify_paydirect_reference, if_neg hne, if_neg
      (by simp : ¬ (false = true))]
    refine ⟨by trivial, ?_, ?_, by trivial, ?_, ?_⟩
    · exact_mod_cast Nat.le_add_right 10000 (rng % 190001)
    · exact_mod_cast Nat.add_le_add_left (Nat.le_of_lt_succ (Nat.mod_lt rng (by norm_num))) 10000
    · exact_mod_cast Nat.le_add_right 15500 (rng % 486501)
    · exact_mod_cast Nat.add_le_add_left (Nat.le_of_lt_succ (Nat.mod_lt rng (by norm_num))) 15500
  · simp only [verify_remita_rrr, if_neg hne, if_neg (by simp : ¬ (false = true))]
    norm_num
  · simp only [verify_paydirect_reference, if_neg hne, if_neg (by simp : ¬ (false = true))]
    norm_num

/-- Claim C10 witness: the mock-mode theorem read off at the concrete
reference "RRR-123". -/
theorem c10_mock_mode_verification_witness :
    pyTruthy (some "RRR-123") = true
    ∧ (verify_remita_rrr false none 5 (some "RRR-123")).verified = true
    ∧ (verify_paydirect_reference false none 5 (some "RRR-123")).verified = true
    ∧ (verify_remita_rrr false none 0 (some "RRR-123")).amount ≠
        (verify_remita_rrr false none 1 (some "RRR-123")).amount := by
  have h := c10_mock_mode_verification (some "RRR-123") (by decide)
  exact ⟨by decide, (h.1 none 5).1, (h.1 none 5).2.2.2.1, h.2.1⟩
